import Mathlib

/-!
Verification of the HarmonyLink database script (src/HarmonyLink.py).

The script drives a SQLite store with five tables (users, mood_sessions,
breathing_levels, breathing_sessions, user_stats).  We embed the store as a
`DB` record of row lists plus the AUTOINCREMENT counters, and each Python
function as a Lean function on `DB`.

A crucial point of fidelity: `get_connection()` calls `sqlite3.connect`
without issuing `PRAGMA foreign_keys = ON`.  In SQLite that pragma is
per-connection and defaults to OFF; the only place it is executed is inside
`SCHEMA_SQL`, on the connection used by `init_db`, which is then closed.
Hence on the connections used by every other operation foreign-key clauses
(`ON DELETE CASCADE`, `ON DELETE SET NULL`, plain `FOREIGN KEY`) are NOT
enforced, while `UNIQUE`, `CHECK` and primary-key constraints are (those are
unconditional in SQLite).  The operations below model that actual behaviour.

Dates are modelled as integers (a day index); `DATE('now')` becomes an
explicit `today : Int` argument, and `DATE('now','-1 day')` is `today - 1`.
-/

/-- A row of the `users` table (created_at omitted: no claim mentions it). -/
structure UserRow where
  user_id : Nat
  name : String
  email : String
  password_hash : String
deriving Repr, DecidableEq

/-- A row of the `mood_sessions` table. -/
structure MoodRow where
  session_id : Nat
  user_id : Nat
  stress_level : Int
  q1_answer : Option String
  q2_answer : Option String
  q3_answer : Option String
  points_earned : Int
deriving Repr, DecidableEq

/-- A row of the `breathing_levels` table. -/
structure LevelRow where
  level_id : Nat
  title : String
  description : String
  duration_seconds : Int
  base_points : Int
deriving Repr, DecidableEq

/-- A row of the `breathing_sessions` table. -/
structure BreathRow where
  breathing_session_id : Nat
  user_id : Nat
  session_id : Option Nat
  level_id : Nat
  points_earned : Int
deriving Repr, DecidableEq

/-- A row of the `user_stats` table. -/
structure StatsRow where
  user_id : Nat
  total_points : Int
  current_streak_days : Int
  last_activity_date : Option Int
deriving Repr, DecidableEq

/-- The whole store: the five tables plus the AUTOINCREMENT counters of the
three tables with `INTEGER PRIMARY KEY AUTOINCREMENT` keys. -/
structure DB where
  users : List UserRow
  mood_sessions : List MoodRow
  breathing_levels : List LevelRow
  breathing_sessions : List BreathRow
  user_stats : List StatsRow
  next_user_id : Nat
  next_mood_id : Nat
  next_breath_id : Nat
deriving Repr, DecidableEq

/-- Errors surfaced by sqlite3 as `IntegrityError`; the spec's taxonomy. -/
inductive SqlError where
  | uniquenessViolation
  | constraintViolation
  | referentialIntegrity
deriving Repr, DecidableEq

/-- A store with all tables empty and AUTOINCREMENT counters at 1
(SQLite hands out rowid 1 first). -/
def emptyDB : DB :=
  { users := [], mood_sessions := [], breathing_levels := [],
    breathing_sessions := [], user_stats := [],
    next_user_id := 1, next_mood_id := 1, next_breath_id := 1 }

/-- The five seed rows of `SCHEMA_SQL`'s `INSERT OR IGNORE INTO
breathing_levels`. -/
def seedLevels : List LevelRow :=
  [ ⟨1, "Level 1 - Easy",   "Short and simple breathing exercise.",   60,  10⟩,
    ⟨2, "Level 2 - Light",  "Slightly longer breathing exercise.",    120, 20⟩,
    ⟨3, "Level 3 - Medium", "Moderate breathing exercise.",           180, 30⟩,
    ⟨4, "Level 4 - Hard",   "Longer and more intense breathing.",     240, 40⟩,
    ⟨5, "Level 5 - Expert", "Longest and most challenging exercise.", 300, 50⟩ ]

/-- `init_db`: `CREATE TABLE IF NOT EXISTS` leaves existing tables as they
are, and `INSERT OR IGNORE` inserts each seed row whose `level_id`
(the primary key) is not already present. -/
def init_db (db : DB) : DB :=
  { db with breathing_levels := db.breathing_levels ++ seedLevels.filter (fun l => ¬ db.breathing_levels.any (fun x => x.level_id = l.level_id)) }

/-- `create_user`: inserts the user row, then a `user_stats` row for the new
id (all other stats columns take their defaults `0, 0, NULL`), and only then
commits.  If the email is already present the first `INSERT` raises
`IntegrityError` (UNIQUE on email) before anything is committed; if the
stats insert were to hit a primary-key conflict the same would happen after
the first insert but still before the commit, so in either failure case the
persisted store is unchanged. -/
def create_user (db : DB) (name email password_hash : String) :
    DB × Except SqlError Nat :=
  if db.users.any (fun u => u.email = email) then
    (db, .error .uniquenessViolation)
  else
    let uid := db.next_user_id
    if db.user_stats.any (fun s => s.user_id = uid) then
      (db, .error .constraintViolation)
    else
      ({ db with
          users := db.users ++ [⟨uid, name, email, password_hash⟩],
          user_stats := db.user_stats ++ [⟨uid, 0, 0, none⟩],
          next_user_id := uid + 1 },
       .ok uid)

/-- `add_mood_session`: the `CHECK (stress_level BETWEEN 1 AND 5)` is always
enforced by SQLite; the `FOREIGN KEY (user_id)` is not, because the
connection has `foreign_keys` OFF, so no existence check on `user_id`
happens and the insert succeeds even for an unknown user. -/
def add_mood_session (db : DB) (user_id : Nat) (stress_level : Int)
    (q1 q2 q3 : Option String) (points_earned : Int) :
    DB × Except SqlError Nat :=
  if 1 ≤ stress_level ∧ stress_level ≤ 5 then
    let sid := db.next_mood_id
    ({ db with
        mood_sessions :=
          db.mood_sessions ++ [⟨sid, user_id, stress_level, q1, q2, q3, points_earned⟩],
        next_mood_id := sid + 1 },
     .ok sid)
  else
    (db, .error .constraintViolation)

/-- `add_breathing_session`: with `foreign_keys` OFF on the connection none
of the three foreign keys is checked, so the insert always succeeds. -/
def add_breathing_session (db : DB) (user_id : Nat) (level_id : Nat)
    (session_id : Option Nat) (points_earned : Int) :
    DB × Except SqlError Nat :=
  let bid := db.next_breath_id
  ({ db with
      breathing_sessions :=
        db.breathing_sessions ++ [⟨bid, user_id, session_id, level_id, points_earned⟩],
      next_breath_id := bid + 1 },
   .ok bid)

/-- One row's worth of the `UPDATE user_stats SET ...` statement.  In a
SQLite `UPDATE`, every expression on the right of `SET` reads the OLD row,
so the `CASE` sees the old `last_activity_date`.  A `NULL`
`last_activity_date` compares as not-equal in both `WHEN` branches and falls
to `ELSE 1`. -/
def updateStatsRow (added_points : Int) (today : Int) (s : StatsRow) : StatsRow :=
  { s with
      total_points := s.total_points + added_points,
      current_streak_days :=
        match s.last_activity_date with
        | some d =>
            if d = today - 1 then s.current_streak_days + 1
            else if d = today then s.current_streak_days
            else 1
        | none => 1,
      last_activity_date := some today }

/-- `update_user_stats`: a single `UPDATE ... WHERE user_id = ?`; rows not
matching the `WHERE` are untouched, and if no row matches the statement
affects zero rows and raises nothing. -/
def update_user_stats (db : DB) (user_id : Nat) (added_points : Int)
    (today : Int) : DB :=
  { db with user_stats := db.user_stats.map (fun s => if s.user_id = user_id then updateStatsRow added_points today s else s) }

/-- `delete_user`: `DELETE FROM users WHERE user_id = ?` on a connection with
`foreign_keys` OFF, so the declared `ON DELETE CASCADE` clauses do NOT fire:
only the `users` table changes. -/
def delete_user (db : DB) (user_id : Nat) : DB :=
  { db with users := db.users.filter (fun u => ¬ u.user_id = user_id) }

/-- `delete_mood_session` (foreign_keys OFF: no `SET NULL` on referencing
breathing_sessions). -/
def delete_mood_session (db : DB) (session_id : Nat) : DB :=
  { db with mood_sessions :=
      db.mood_sessions.filter (fun m => ¬ m.session_id = session_id) }

/-- `delete_breathing_session`. -/
def delete_breathing_session (db : DB) (breathing_session_id : Nat) : DB :=
  { db with breathing_sessions := db.breathing_sessions.filter (fun b => ¬ b.breathing_session_id = breathing_session_id) }

/-- `delete_breathing_level`: with `foreign_keys` OFF the restricting
`FOREIGN KEY (level_id)` of `breathing_sessions` is not checked, so the
delete always succeeds, whether or not sessions reference the level. -/
def delete_breathing_level (db : DB) (level_id : Nat) : DB :=
  { db with breathing_levels :=
      db.breathing_levels.filter (fun l => ¬ l.level_id = level_id) }

/-- `delete_user_stats`. -/
def delete_user_stats (db : DB) (user_id : Nat) : DB :=
  { db with user_stats :=
      db.user_stats.filter (fun s => ¬ s.user_id = user_id) }

/-- The streak rule exactly as the spec words it (§4.2): last activity
yesterday → increment, last activity today → unchanged, otherwise (null or a
gap of two or more days) → reset to 1. -/
def specStreak (last : Option Int) (streak : Int) (today : Int) : Int :=
  if last = some (today - 1) then streak + 1
  else if last = some today then streak
  else 1

/-- Stats lookup, as the `user_stats` row of a given user. -/
def statsOf (db : DB) (uid : Nat) : Option StatsRow :=
  db.user_stats.find? (fun s => s.user_id = uid)

/-! ## Helper lemmas -/

/-- The `UPDATE` never touches the key column. -/
theorem updateStatsRow_user_id (p t : Int) (s : StatsRow) :
    (updateStatsRow p t s).user_id = s.user_id := rfl

/-- A per-row reading of the `SET` clause: it is exactly the spec's rule
(§4.2): add the points, recompute the streak from the OLD
`last_activity_date` against yesterday/today, then stamp today. -/
theorem updateStatsRow_eq_spec (p t : Int) (s : StatsRow) :
    updateStatsRow p t s =
      { s with
          total_points := s.total_points + p,
          current_streak_days := specStreak s.last_activity_date s.current_streak_days t,
          last_activity_date := some t } := by
  unfold updateStatsRow specStreak
  cases hl : s.last_activity_date with
  | none => simp
  | some d => simp

/-- `find?` of the updated table is the update of the found row. -/
theorem find?_map_update (l : List StatsRow) (uid : Nat) (p t : Int) :
    (l.map (fun s => if s.user_id = uid then updateStatsRow p t s else s)).find?
        (fun s => s.user_id = uid) =
      (l.find? (fun s => s.user_id = uid)).map (updateStatsRow p t) := by
  induction l with
  | nil => rfl
  | cons a l ih =>
    by_cases h : a.user_id = uid
    · simp [List.find?_cons, h, updateStatsRow_user_id]
    · simp [List.find?_cons, h, ih]

/-- Stats lookup after `update_user_stats`. -/
theorem statsOf_update_user_stats (db : DB) (uid : Nat) (p t : Int) :
    statsOf (update_user_stats db uid p t) uid =
      (statsOf db uid).map (updateStatsRow p t) := by
  unfold statsOf update_user_stats
  exact find?_map_update db.user_stats uid p t

/-! ## C1: the streak/points update rule -/

/-- C1. For a user with a `user_stats` row, `update_user_stats` adds the
points to `total_points`, recomputes `current_streak_days` from the OLD
`last_activity_date` by the spec's rule (`specStreak`: yesterday → +1,
today → unchanged, null or gap ≥ 2 days → reset to 1), and stamps
`last_activity_date := today`.  Consequently a second update on the same
day adds its points but leaves the streak where the first update put it
(two same-day updates on a fresh user give streak 1, not 2, and
`total_points` the sum of both amounts); an update the next calendar day
increments the streak by exactly 1; an update after a 2-day gap resets the
streak to 1. -/
theorem update_user_stats_streak_rule
    (db : DB) (uid : Nat) (p p2 t : Int) (row : StatsRow)
    (h : statsOf db uid = some row) :
    (statsOf (update_user_stats db uid p t) uid =
      some { row with
              total_points := row.total_points + p,
              current_streak_days := specStreak row.last_activity_date row.current_streak_days t,
              last_activity_date := some t }) ∧
    (statsOf (update_user_stats (update_user_stats db uid p t) uid p2 t) uid =
      some { row with
              total_points := row.total_points + p + p2,
              current_streak_days := specStreak row.last_activity_date row.current_streak_days t,
              last_activity_date := some t }) ∧
    (statsOf (update_user_stats (update_user_stats db uid p t) uid p2 (t + 1)) uid =
      some { row with
              total_points := row.total_points + p + p2,
              current_streak_days := specStreak row.last_activity_date row.current_streak_days t + 1,
              last_activity_date := some (t + 1) }) ∧
    (statsOf (update_user_stats (update_user_stats db uid p t) uid p2 (t + 2)) uid =
      some { row with
              total_points := row.total_points + p + p2,
              current_streak_days := 1,
              last_activity_date := some (t + 2) }) := by
  have h1 : statsOf (update_user_stats db uid p t) uid =
      some { row with
              total_points := row.total_points + p,
              current_streak_days := specStreak row.last_activity_date row.current_streak_days t,
              last_activity_date := some t } := by
    rw [statsOf_update_user_stats, h, Option.map_some', updateStatsRow_eq_spec]
  refine ⟨h1, ?_, ?_, ?_⟩
  · rw [statsOf_update_user_stats, h1, Option.map_some', updateStatsRow_eq_spec]
    have : specStreak (some t) (specStreak row.last_activity_date row.current_streak_days t) t =
        specStreak row.last_activity_date row.current_streak_days t := by
      unfold specStreak
      have ht : ¬ (t = t - 1) := by omega
      simp [ht]
    simp [this]
  · rw [statsOf_update_user_stats, h1, Option.map_some', updateStatsRow_eq_spec]
    have : specStreak (some t) (specStreak row.last_activity_date row.current_streak_days t) (t + 1) =
        specStreak row.last_activity_date row.current_streak_days t + 1 := by
      unfold specStreak
      have ht : t = t + 1 - 1 := by omega
      simp [← ht]
    simp [this]
  · rw [statsOf_update_user_stats, h1, Option.map_some', updateStatsRow_eq_spec]
    have : specStreak (some t) (specStreak row.last_activity_date row.current_streak_days t) (t + 2) = 1 := by
      unfold specStreak
      have h2 : ¬ (t = t + 2 - 1) := by omega
      have h3 : ¬ (t = t + 2) := by omega
      simp [h2, h3]
    simp [this]

/-- Witness for C1, on a fresh user's zeroed stats row at day 5: one update
of 10 points gives (10, streak 1, day 5); a second same-day update of 5 more
gives (15, still streak 1); run instead on day 6 it gives streak 2; on day 7
it resets to streak 1. -/
theorem update_user_stats_streak_rule_witness :
    (statsOf (update_user_stats ⟨[], [], [], [], [⟨1, 0, 0, none⟩], 2, 1, 1⟩ 1 10 5) 1 =
      some ⟨1, 10, 1, some 5⟩) ∧
    (statsOf (update_user_stats (update_user_stats ⟨[], [], [], [], [⟨1, 0, 0, none⟩], 2, 1, 1⟩ 1 10 5) 1 5 5) 1 =
      some ⟨1, 15, 1, some 5⟩) ∧
    (statsOf (update_user_stats (update_user_stats ⟨[], [], [], [], [⟨1, 0, 0, none⟩], 2, 1, 1⟩ 1 10 5) 1 5 6) 1 =
      some ⟨1, 15, 2, some 6⟩) ∧
    (statsOf (update_user_stats (update_user_stats ⟨[], [], [], [], [⟨1, 0, 0, none⟩], 2, 1, 1⟩ 1 10 5) 1 5 7) 1 =
      some ⟨1, 15, 1, some 7⟩) := by
  have h := update_user_stats_streak_rule ⟨[], [], [], [], [⟨1, 0, 0, none⟩], 2, 1, 1⟩ 1 10 5 5
    ⟨1, 0, 0, none⟩ rfl
  simpa [specStreak] using h

/-! ## C8: update on a user with no stats row is a no-op -/

/-- C8. When `uid` has no `user_stats` row the `UPDATE ... WHERE user_id = ?`
matches zero rows: `update_user_stats` raises nothing, creates nothing, and
returns the store completely unchanged. -/
theorem update_user_stats_no_row (db : DB) (uid : Nat) (p t : Int)
    (h : statsOf db uid = none) :
    update_user_stats db uid p t = db := by
  unfold update_user_stats
  have hall : ∀ s ∈ db.user_stats, ¬ ((fun s : StatsRow => s.user_id = uid) s : Bool) := by
    exact List.find?_eq_none.mp h
  have hmap : db.user_stats.map
      (fun s => if s.user_id = uid then updateStatsRow p t s else s) = db.user_stats := by
    conv_rhs => rw [show db.user_stats = db.user_stats.map id from (List.map_id db.user_stats).symm]
    refine List.map_congr_left ?_
    intro s hs
    have := hall s hs
    simp only [decide_eq_true_eq] at this
    simp [this]
  rw [hmap]

/-- Witness for C8: on a store holding only user 1's stats, updating user 7
changes nothing at all. -/
theorem update_user_stats_no_row_witness :
    statsOf (⟨[], [], [], [], [⟨1, 0, 0, none⟩], 2, 1, 1⟩ : DB) 7 = none ∧
    update_user_stats ⟨[], [], [], [], [⟨1, 0, 0, none⟩], 2, 1, 1⟩ 7 10 5 =
      ⟨[], [], [], [], [⟨1, 0, 0, none⟩], 2, 1, 1⟩ :=
  ⟨by decide, update_user_stats_no_row ⟨[], [], [], [], [⟨1, 0, 0, none⟩], 2, 1, 1⟩ 7 10 5 (by decide)⟩

/-! ## C10: session inserts never touch user_stats -/

/-- C10. Neither `add_mood_session` nor `add_breathing_session` modifies any
`user_stats` row — whether the insert succeeds or fails, the whole
`user_stats` table (every user's `total_points`, `current_streak_days` and
`last_activity_date`) is exactly what it was; stats change only through
`update_user_stats`. -/
theorem sessions_leave_user_stats_unchanged
    (db : DB) (u lv : Nat) (sl pts : Int) (q1 q2 q3 : Option String) (ms : Option Nat) :
    (add_mood_session db u sl q1 q2 q3 pts).1.user_stats = db.user_stats ∧
    (add_breathing_session db u lv ms pts).1.user_stats = db.user_stats := by
  constructor
  · unfold add_mood_session
    split <;> rfl
  · rfl

/-! ## C2, C3, C4: foreign keys are OFF on every operation connection -/

/-- C2 (failing): the schema declares `ON DELETE CASCADE` on mood_sessions,
breathing_sessions and user_stats, but `delete_user` runs on a fresh
connection where `PRAGMA foreign_keys` was never enabled, so the cascade
does not fire.  Concretely: a store with user 1, one mood session, one
breathing session and a stats row, all owned by user 1; after
`delete_user 1` the user row is gone but all three dependent rows are still
there, each still referencing the deleted user. -/
theorem delete_user_does_not_cascade :
    (delete_user ⟨[⟨1, "Moamen User", "moamen@example.com", "hash123"⟩],
        [⟨1, 1, 4, some "tired", some "not good", some "need rest", 5⟩],
        seedLevels, [⟨1, 1, some 1, 3, 30⟩], [⟨1, 30, 1, some 0⟩], 2, 2, 2⟩ 1).users = [] ∧
    (delete_user ⟨[⟨1, "Moamen User", "moamen@example.com", "hash123"⟩],
        [⟨1, 1, 4, some "tired", some "not good", some "need rest", 5⟩],
        seedLevels, [⟨1, 1, some 1, 3, 30⟩], [⟨1, 30, 1, some 0⟩], 2, 2, 2⟩ 1).mood_sessions =
      [⟨1, 1, 4, some "tired", some "not good", some "need rest", 5⟩] ∧
    (delete_user ⟨[⟨1, "Moamen User", "moamen@example.com", "hash123"⟩],
        [⟨1, 1, 4, some "tired", some "not good", some "need rest", 5⟩],
        seedLevels, [⟨1, 1, some 1, 3, 30⟩], [⟨1, 30, 1, some 0⟩], 2, 2, 2⟩ 1).breathing_sessions =
      [⟨1, 1, some 1, 3, 30⟩] ∧
    (delete_user ⟨[⟨1, "Moamen User", "moamen@example.com", "hash123"⟩],
        [⟨1, 1, 4, some "tired", some "not good", some "need rest", 5⟩],
        seedLevels, [⟨1, 1, some 1, 3, 30⟩], [⟨1, 30, 1, some 0⟩], 2, 2, 2⟩ 1).user_stats =
      [⟨1, 30, 1, some 0⟩] :=
  ⟨rfl, rfl, rfl, rfl⟩

/-- C3 (failing): the `breathing_sessions.level_id` foreign key (no cascade)
should make the delete of a referenced level fail, but with `foreign_keys`
OFF on `delete_breathing_level`'s connection the row is deleted without any
error, orphaning the session.  Concretely: a store where level 3 is
referenced by breathing session 1; after `delete_breathing_level 3` the
level row is gone and the session still references the now-missing level. -/
theorem delete_breathing_level_not_refused :
    ((delete_breathing_level ⟨[⟨1, "A", "a@x", "h"⟩], [], seedLevels,
        [⟨1, 1, none, 3, 30⟩], [⟨1, 0, 0, none⟩], 2, 1, 2⟩ 3).breathing_levels.any
      (fun l => l.level_id = 3)) = false ∧
    (delete_breathing_level ⟨[⟨1, "A", "a@x", "h"⟩], [], seedLevels,
        [⟨1, 1, none, 3, 30⟩], [⟨1, 0, 0, none⟩], 2, 1, 2⟩ 3).breathing_sessions =
      [⟨1, 1, none, 3, 30⟩] := by
  constructor
  · decide
  · rfl

/-- C4 (partly failing): the `CHECK (stress_level BETWEEN 1 AND 5)` part
holds — stress levels 0 and 6 are rejected and 1..5 accepted — but the
"userId must exist" part does not: on a freshly initialised store with no
users at all, `add_mood_session` for user 999 succeeds and inserts a row
referencing the non-existent user, because the connection never enabled
`PRAGMA foreign_keys`. -/
theorem add_mood_session_fk_not_enforced :
    (init_db emptyDB).users = [] ∧
    (add_mood_session (init_db emptyDB) 999 3 none none none 0).2 = Except.ok 1 ∧
    ((add_mood_session (init_db emptyDB) 999 3 none none none 0).1.mood_sessions.any
      (fun m => m.user_id = 999)) = true ∧
    (add_mood_session (init_db emptyDB) 1 0 none none none 0).2 =
      Except.error SqlError.constraintViolation ∧
    (add_mood_session (init_db emptyDB) 1 6 none none none 0).2 =
      Except.error SqlError.constraintViolation ∧
    (add_mood_session (init_db emptyDB) 1 1 none none none 0).2 = Except.ok 1 ∧
    (add_mood_session (init_db emptyDB) 1 5 none none none 0).2 = Except.ok 1 := by
  refine ⟨rfl, rfl, by decide, rfl, rfl, rfl, rfl⟩

/-! ## C5, C6, C9: create_user -/

/-- C5. With a fresh email (and the AUTOINCREMENT invariant that every
existing stats key is below the next user id), `create_user` succeeds with
some id, and the `user_stats` row for that id exists with the column
defaults: `total_points = 0`, `current_streak_days = 0`,
`last_activity_date = NULL`. -/
theorem create_user_zeroed_stats (db : DB) (n e pw : String)
    (hfresh : db.users.any (fun u => u.email = e) = false)
    (hinv : ∀ s ∈ db.user_stats, s.user_id < db.next_user_id) :
    ∃ uid, (create_user db n e pw).2 = Except.ok uid ∧
      statsOf (create_user db n e pw).1 uid = some ⟨uid, 0, 0, none⟩ := by
  have hstats : db.user_stats.any (fun s => s.user_id = db.next_user_id) = false := by
    by_contra hc
    rw [Bool.not_eq_false, List.any_eq_true] at hc
    obtain ⟨s, hs, heq⟩ := hc
    simp only [decide_eq_true_eq] at heq
    exact absurd heq (Nat.ne_of_lt (hinv s hs))
  refine ⟨db.next_user_id, ?_, ?_⟩
  · unfold create_user
    simp [hfresh, hstats]
  · unfold create_user statsOf
    simp only [hfresh, hstats, Bool.false_eq_true, if_false]
    rw [List.find?_append]
    have hnone : db.user_stats.find? (fun s => s.user_id = db.next_user_id) = none := by
      rw [List.find?_eq_none]
      intro s hs
      simp only [decide_eq_true_eq]
      exact Nat.ne_of_lt (hinv s hs)
    rw [hnone]
    simp [List.find?]

/-- Witness for C5: creating the first user of an empty store yields id 1
and a zeroed stats row. -/
theorem create_user_zeroed_stats_witness :
    ∃ uid, (create_user emptyDB "Moamen User" "moamen@example.com" "hash123").2 = Except.ok uid ∧
      statsOf (create_user emptyDB "Moamen User" "moamen@example.com" "hash123").1 uid =
        some ⟨uid, 0, 0, none⟩ :=
  create_user_zeroed_stats emptyDB "Moamen User" "moamen@example.com" "hash123" rfl
    (by intro s hs; cases hs)

/-- C6. Creating a user with the email of an existing user fails with the
uniqueness violation, and the store — in particular the first user's row and
its stats row — is exactly what it was before the failed call. -/
theorem create_user_duplicate_email (db : DB) (n e pw : String) (u : UserRow)
    (hu : u ∈ db.users) (he : u.email = e) :
    create_user db n e pw = (db, Except.error SqlError.uniquenessViolation) := by
  unfold create_user
  have hany : db.users.any (fun x => x.email = e) = true :=
    List.any_eq_true.mpr ⟨u, hu, by simp [he]⟩
  simp [hany]

/-- Witness for C6: re-using the first user's email on a one-user store
fails and returns that store unchanged. -/
theorem create_user_duplicate_email_witness :
    create_user ⟨[⟨1, "A", "a@x.com", "h1"⟩], [], [], [], [⟨1, 0, 0, none⟩], 2, 1, 1⟩
        "B" "a@x.com" "h2" =
      (⟨[⟨1, "A", "a@x.com", "h1"⟩], [], [], [], [⟨1, 0, 0, none⟩], 2, 1, 1⟩,
        Except.error SqlError.uniquenessViolation) :=
  create_user_duplicate_email _ "B" "a@x.com" "h2" ⟨1, "A", "a@x.com", "h1"⟩
    (List.mem_singleton.mpr rfl) rfl

/-- C9. `create_user` is atomic: when it reports success, both the user row
(with exactly the given name, email and hash) and its zeroed stats row are
in the resulting store; when it reports any error, the resulting store is
the input store — never one row without the other. -/
theorem create_user_atomic (db : DB) (n e pw : String) :
    (∀ uid, (create_user db n e pw).2 = Except.ok uid →
      (⟨uid, n, e, pw⟩ : UserRow) ∈ (create_user db n e pw).1.users ∧
      (⟨uid, 0, 0, none⟩ : StatsRow) ∈ (create_user db n e pw).1.user_stats) ∧
    (∀ err, (create_user db n e pw).2 = Except.error err →
      (create_user db n e pw).1 = db) := by
  unfold create_user
  by_cases h1 : db.users.any (fun u => u.email = e) = true
  · simp [h1]
  · rw [Bool.not_eq_true] at h1
    by_cases h2 : db.user_stats.any (fun s => s.user_id = db.next_user_id) = true
    · simp [h1, h2]
    · rw [Bool.not_eq_true] at h2
      simp only [h1, h2, Bool.false_eq_true, if_false]
      constructor
      · intro uid heq
        simp only [Except.ok.injEq] at heq
        subst heq
        constructor
        · exact List.mem_append_right _ (List.mem_singleton.mpr rfl)
        · exact List.mem_append_right _ (List.mem_singleton.mpr rfl)
      · intro err heq
        cases heq

/-- Witness for C9: on an empty store the success branch yields both rows. -/
theorem create_user_atomic_witness :
    (⟨1, "A", "a@x.com", "h"⟩ : UserRow) ∈ (create_user emptyDB "A" "a@x.com" "h").1.users ∧
    (⟨1, 0, 0, none⟩ : StatsRow) ∈ (create_user emptyDB "A" "a@x.com" "h").1.user_stats :=
  (create_user_atomic emptyDB "A" "a@x.com" "h").1 1 rfl

/-! ## C7: init_db idempotence and the fixed seed -/

/-- After any `init_db`, every seed level id is present (either it was
already there, or the `INSERT OR IGNORE` just added it). -/
theorem seed_present_after_init (db : DB) :
    ∀ l ∈ seedLevels,
      (init_db db).breathing_levels.any (fun x => x.level_id = l.level_id) = true := by
  intro l hl
  unfold init_db
  simp only [List.any_append, Bool.or_eq_true]
  by_cases hA : db.breathing_levels.any (fun x => x.level_id = l.level_id) = true
  · exact Or.inl hA
  · right
    rw [List.any_eq_true]
    refine ⟨l, ?_, by simp⟩
    rw [List.mem_filter]
    refine ⟨hl, ?_⟩
    rw [Bool.not_eq_true] at hA
    simp [hA]

/-- Running `init_db` on an already-initialised store changes nothing: every
seed id is already present, so `INSERT OR IGNORE` inserts nothing. -/
theorem init_db_idem (db : DB) : init_db (init_db db) = init_db db := by
  have hfilt : seedLevels.filter
      (fun l => ¬ (init_db db).breathing_levels.any (fun x => x.level_id = l.level_id)) = [] := by
    rw [List.filter_eq_nil_iff]
    intro l hl
    simp only [decide_eq_true_eq, Decidable.not_not]
    exact seed_present_after_init db l hl
  have hsh : init_db (init_db db) = { init_db db with breathing_levels := (init_db db).breathing_levels ++ seedLevels.filter (fun l => ¬ (init_db db).breathing_levels.any (fun x => x.level_id = l.level_id)) } := rfl
  rw [hsh, hfilt, List.append_nil]

/-- C7. `init_db` is idempotent — a second run changes nothing, so any
number n+1 of runs on the (initially empty) store equals a single run — and
a single run on the empty store leaves `breathing_levels` holding exactly
the five fixed seed rows (ids 1..5, the listed titles, durations
60..300 s and base points 10..50), never a duplicate. -/
theorem init_db_idempotent_seed :
    (∀ db : DB, init_db (init_db db) = init_db db) ∧
    (∀ n : Nat, init_db^[n + 1] emptyDB = init_db emptyDB) ∧
    (init_db emptyDB).breathing_levels = seedLevels := by
  refine ⟨init_db_idem, ?_, rfl⟩
  intro n
  induction n with
  | zero => rfl
  | succ m ih =>
    rw [Function.iterate_succ_apply', ih]
    exact init_db_idem emptyDB
